import Mathlib

/-!
Shallow embedding of the sqlite-operator reconciliation controller.

Sources embedded:
- api/v1alpha1 type definitions (SqliteDatabaseSpec and friends),
- internal/controller/sqlitedatabase_controller.go: setDefaults,
  buildReplicaURL, buildLitestreamConfig, the credential-environment loop
  of buildContainers, buildServicePorts, reconcileIngress, updateStatus,
  and the Reconcile orchestrator.

Go pointers become Option, int32/int64 become Int, and nil-guarded
boolean checks become explicit Option matches.  External effects (the
object store, YAML marshalling) are abstracted as explicit parameters or
environments; wall-clock fields (condition transition timestamps) are
omitted since no claim mentions them.
-/

namespace SqliteOperator

namespace v1alpha1

/-- MetricsConfig defines metrics configuration (api/v1alpha1). -/
structure MetricsConfig where
  enabled : Bool
  port : Int
  deriving Repr, DecidableEq

/-- SqliteRestConfig defines sqlite-rest API configuration (api/v1alpha1). -/
structure SqliteRestConfig where
  enabled : Bool
  port : Int
  authSecret : Option String
  allowedTables : List String
  metrics : Option MetricsConfig
  deriving Repr, DecidableEq

/-- CredentialsConfig defines credentials for storage backends (api/v1alpha1). -/
structure CredentialsConfig where
  secretName : String
  accessKeyField : Option String
  secretKeyField : Option String
  deriving Repr, DecidableEq

/-- ReplicaConfig defines individual replica configuration (api/v1alpha1). -/
structure ReplicaConfig where
  type : String
  bucket : String
  region : Option String
  endpoint : Option String
  path : Option String
  credentials : Option CredentialsConfig
  retention : Option String
  retentionCheckInterval : Option String
  deriving Repr, DecidableEq

/-- LitestreamConfig defines Litestream replication configuration (api/v1alpha1). -/
structure LitestreamConfig where
  enabled : Bool
  replicas : List ReplicaConfig
  deriving Repr, DecidableEq

/-- TLSConfig defines TLS configuration (api/v1alpha1). -/
structure TLSConfig where
  enabled : Bool
  secretName : Option String
  deriving Repr, DecidableEq

/-- IngressConfig defines ingress configuration for external access (api/v1alpha1). -/
structure IngressConfig where
  enabled : Bool
  host : Option String
  tls : Option TLSConfig
  deriving Repr, DecidableEq

/-- StorageConfig defines storage configuration for the database (api/v1alpha1). -/
structure StorageConfig where
  size : String
  storageClass : Option String
  accessMode : String
  deriving Repr, DecidableEq

/-- DatabaseConfig defines SQLite database configuration (api/v1alpha1). -/
structure DatabaseConfig where
  name : String
  initScript : Option String
  storage : StorageConfig
  deriving Repr, DecidableEq

/-- SqliteDatabaseSpec defines the desired state of SqliteDatabase (api/v1alpha1).
    The Resources field is omitted: it is never read by the controller. -/
structure SqliteDatabaseSpec where
  database : DatabaseConfig
  litestream : Option LitestreamConfig
  sqliteRest : Option SqliteRestConfig
  ingress : Option IngressConfig
  deriving Repr, DecidableEq

/-- Condition models metav1.Condition as used by the controller: type, status
    (the string "True" or "False"), reason and message.  LastTransitionTime
    is wall-clock time and is omitted. -/
structure Condition where
  type : String
  status : String
  reason : String
  message : String
  deriving Repr, DecidableEq

/-- EndpointsStatus defines API endpoints information (api/v1alpha1). -/
structure EndpointsStatus where
  rest : Option String
  metrics : Option String
  deriving Repr, DecidableEq

/-- SqliteDatabaseStatus defines the observed state of SqliteDatabase
    (api/v1alpha1).  LastBackup is a wall-clock timestamp never written by
    the controller and is omitted. -/
structure SqliteDatabaseStatus where
  phase : String
  message : String
  replicas : Int
  endpoints : Option EndpointsStatus
  conditions : List Condition
  observedGeneration : Int
  deriving Repr, DecidableEq

/-- SqliteDatabase is the controller's resource: object metadata (name,
    namespace, generation) plus spec and status. -/
structure SqliteDatabase where
  name : String
  Namespace : String
  generation : Int
  spec : SqliteDatabaseSpec
  status : SqliteDatabaseStatus
  deriving Repr, DecidableEq

end v1alpha1

namespace controller

open v1alpha1

/-- setDefaults sets default values for the SqliteDatabase
    (sqlitedatabase_controller.go, lines 166-207).  Each Go `if` guard
    becomes a conditional rebinding; the checks are independent and applied
    in source order. -/
def setDefaults (sqliteDB : SqliteDatabase) : SqliteDatabase :=
  let db := if sqliteDB.spec.database.name = "" then
    { sqliteDB with spec.database.name := "database.db" } else sqliteDB
  let db := if db.spec.database.storage.size = "" then
    { db with spec.database.storage.size := "1Gi" } else db
  let db := if db.spec.litestream = none then
    { db with spec.litestream := some { enabled := true, replicas := [] } } else db
  let defaultRest : SqliteRestConfig :=
    { enabled := false, port := 8080, authSecret := none, allowedTables := [],
      metrics := some { enabled := true, port := 8081 } }
  let db := if db.spec.sqliteRest = none then
    { db with spec.sqliteRest := some defaultRest } else db
  let db := if db.spec.database.storage.accessMode = "" then
    { db with spec.database.storage.accessMode := "ReadWriteMany" } else db
  let db := if db.spec.ingress = none then
    { db with spec.ingress := some { enabled := false, host := none, tls := none } } else db
  db

/-- buildReplicaURL builds the URL for a replica based on its type
    (sqlitedatabase_controller.go, lines 328-346). -/
def buildReplicaURL (replica : ReplicaConfig) : String :=
  let path := match replica.path with
    | some p => p
    | none => ""
  match replica.type with
  | "s3" => "s3://" ++ replica.bucket ++ "/" ++ path
  | "azure" => "abs://" ++ replica.bucket ++ "/" ++ path
  | "gcs" => "gs://" ++ replica.bucket ++ "/" ++ path
  | "local" => "file:///backups/" ++ path
  | _ => "s3://" ++ replica.bucket ++ "/" ++ path

/-- LitestreamReplica is the controller's YAML document shape for one
    replica entry (sqlitedatabase_controller.go, lines 52-58). -/
structure LitestreamReplica where
  url : String
  region : Option String
  retention : Option String
  retentionCheckInterval : Option String
  endpoint : Option String
  deriving Repr, DecidableEq

/-- LitestreamDB is the controller's YAML document shape for one database
    entry (sqlitedatabase_controller.go, lines 47-50). -/
structure LitestreamDB where
  path : String
  replica : LitestreamReplica
  deriving Repr, DecidableEq

/-- LitestreamConfig represents the Litestream configuration structure
    (sqlitedatabase_controller.go, lines 43-45).  Distinct from the
    v1alpha1 spec type of the same name, as in the Go source. -/
structure LitestreamConfig where
  dbs : List LitestreamDB
  deriving Repr, DecidableEq

/-- litestreamEntry is the body of buildLitestreamConfig's per-replica loop
    (sqlitedatabase_controller.go, lines 284-310): one LitestreamDB entry
    whose url comes from buildReplicaURL and whose optional fields are
    forwarded from the replica when present. -/
def litestreamEntry (sqliteDB : SqliteDatabase) (replica : ReplicaConfig) : LitestreamDB :=
  { path := "/var/lib/sqlite/" ++ sqliteDB.spec.database.name,
    replica :=
      { url := buildReplicaURL replica,
        region := replica.region,
        retention := replica.retention,
        retentionCheckInterval := replica.retentionCheckInterval,
        endpoint := replica.endpoint } }

/-- litestreamFallback is the hand-built single-replica document emitted by
    buildLitestreamConfig when YAML marshalling fails
    (sqlitedatabase_controller.go, lines 319-321). -/
def litestreamFallback (sqliteDB : SqliteDatabase) (first : ReplicaConfig) : String :=
  "dbs:\n  - path: /var/lib/sqlite/" ++ sqliteDB.spec.database.name ++
    "\n    replica:\n      url: " ++ buildReplicaURL first

/-- buildLitestreamConfig generates the Litestream configuration YAML
    (sqlitedatabase_controller.go, lines 281-325).  The external
    yaml.Marshal call is abstracted as the `marshal` parameter (none =
    marshalling error).  On the fallback path the Go code indexes
    Replicas[0], which panics when the replica list is empty; that
    unreachable crash is modelled as `none`.  The caller guarantees
    spec.litestream is present; the none branch models the Go nil
    dereference that the Reconcile guard makes unreachable. -/
def buildLitestreamConfig (marshal : LitestreamConfig → Option String)
    (sqliteDB : SqliteDatabase) : Option String :=
  match sqliteDB.spec.litestream with
  | none => none
  | some ls =>
    let dbs := ls.replicas.map (litestreamEntry sqliteDB)
    match marshal { dbs := dbs } with
    | some yamlBytes => some yamlBytes
    | none =>
      match ls.replicas with
      | [] => none
      | first :: _ => some (litestreamFallback sqliteDB first)

/-- EnvVarRef models a corev1.EnvVar whose value is drawn from a secret key
    reference: variable name, secret name, and key within the secret. -/
structure EnvVarRef where
  name : String
  secretName : String
  key : String
  deriving Repr, DecidableEq

/-- getStringValue returns the pointed-to string or the default
    (sqlitedatabase_controller.go, lines 895-900). -/
def getStringValue (ptr : Option String) (defaultValue : String) : String :=
  match ptr with
  | some v => v
  | none => defaultValue

/-- litestreamContainerEnv is the credential-environment loop of
    buildContainers (sqlitedatabase_controller.go, lines 502-530): for each
    replica declaring credentials, append two secret-sourced variables to
    the litestream container's environment. -/
def litestreamContainerEnv (replicas : List ReplicaConfig) : List EnvVarRef :=
  replicas.foldl
    (fun env replica =>
      match replica.credentials with
      | some creds =>
        env ++
          [{ name := "LITESTREAM_ACCESS_KEY_ID", secretName := creds.secretName,
             key := getStringValue creds.accessKeyField "access-key" },
           { name := "LITESTREAM_SECRET_ACCESS_KEY", secretName := creds.secretName,
             key := getStringValue creds.secretKeyField "secret-key" }]
      | none => env)
    []

/-- ServicePort models corev1.ServicePort: name, service-side port, and
    target (container) port. -/
structure ServicePort where
  name : String
  port : Int
  targetPort : Int
  deriving Repr, DecidableEq

/-- buildServicePorts builds the service ports
    (sqlitedatabase_controller.go, lines 731-749).  The Go code
    dereferences Spec.SqliteRest unconditionally; Reconcile only calls it
    when SqliteRest is present and enabled, so the nil dereference is
    modelled by the empty list in the unreachable none branch. -/
def buildServicePorts (sqliteDB : SqliteDatabase) : List ServicePort :=
  match sqliteDB.spec.sqliteRest with
  | none => []
  | some rest =>
    let ports := [{ name := "http", port := 8080, targetPort := rest.port : ServicePort }]
    match rest.metrics with
    | some m =>
      if m.enabled then
        ports ++ [{ name := "metrics", port := 8081, targetPort := m.port }]
      else ports
    | none => ports

/-- IngressTLSEntry models networkingv1.IngressTLS: covered hosts plus the
    TLS secret name. -/
structure IngressTLSEntry where
  hosts : List String
  secretName : String
  deriving Repr, DecidableEq

/-- IngressObject models the networkingv1.Ingress built by
    reconcileIngress: its single host rule (host, backend service name and
    port), TLS entries, and annotations. -/
structure IngressObject where
  name : String
  Namespace : String
  host : String
  serviceName : String
  servicePort : Int
  tls : List IngressTLSEntry
  annotations : List (String × String)
  deriving Repr, DecidableEq

/-- reconcileIngress creates or updates the Ingress
    (sqlitedatabase_controller.go, lines 752-815).  The store call
    (CreateOrUpdate) happens only after the object is built, so it is
    modelled by the ok result carrying the built object; the error result
    is returned before any store interaction.  The caller guarantees
    spec.ingress is present (Reconcile guard); the none branch models the
    unreachable Go nil dereference as the same error. -/
def reconcileIngress (sqliteDB : SqliteDatabase) : Except String IngressObject :=
  match sqliteDB.spec.ingress with
  | none => Except.error "ingress host is required when ingress is enabled"
  | some ing =>
    match ing.host with
    | none => Except.error "ingress host is required when ingress is enabled"
    | some host =>
      let ingress : IngressObject :=
        { name := sqliteDB.name ++ "-ingress",
          Namespace := sqliteDB.Namespace,
          host := host,
          serviceName := sqliteDB.name ++ "-service",
          servicePort := 8080,
          tls := [],
          annotations := [] }
      let ingress :=
        match ing.tls with
        | some tlsCfg =>
          if tlsCfg.enabled then
            match tlsCfg.secretName with
            | some sn =>
              { ingress with
                  tls := [{ hosts := [host], secretName := sn }],
                  annotations := [("cert-manager.io/cluster-issuer", "letsencrypt-prod")] }
            | none => ingress
          else ingress
        | none => ingress
      Except.ok ingress

/-- DeploymentLookup models the result of updateStatus's Get on the
    Deployment (sqlitedatabase_controller.go, lines 820-824): not-found,
    some other lookup error (carrying its message), or the Deployment with
    its ready-replica count. -/
inductive DeploymentLookup where
  | notFound
  | lookupError (msg : String)
  | found (readyReplicas : Int)
  deriving Repr, DecidableEq

/-- serviceEndpointURL renders the endpoint URL format string of
    updateStatus (sqlitedatabase_controller.go, lines 842-843 and 849-850). -/
def serviceEndpointURL (sqliteDB : SqliteDatabase) (port : Int) : String :=
  "http://" ++ sqliteDB.name ++ "-service." ++ sqliteDB.Namespace ++
    ".svc.cluster.local:" ++ toString port

/-- derivePhase is the phase/message/replicas/endpoints part of updateStatus
    (sqlitedatabase_controller.go, lines 818-858), as a function of the
    resource and the observed Deployment lookup result. -/
def derivePhase (sqliteDB : SqliteDatabase) (dep : DeploymentLookup) : SqliteDatabaseStatus :=
  match dep with
  | DeploymentLookup.notFound =>
    { sqliteDB.status with phase := "Pending", message := "Deployment not found" }
  | DeploymentLookup.lookupError msg =>
    { sqliteDB.status with
        phase := "Failed"
        message := "Failed to get deployment: " ++ msg }
  | DeploymentLookup.found readyReplicas =>
    if 0 < readyReplicas then
      let base := { sqliteDB.status with
        phase := "Running"
        message := "Database is running successfully"
        replicas := readyReplicas }
      match sqliteDB.spec.sqliteRest with
      | some rest =>
        if rest.enabled then
          let eps : EndpointsStatus :=
            { rest := some (serviceEndpointURL sqliteDB rest.port), metrics := none }
          let eps :=
            match rest.metrics with
            | some m =>
              if m.enabled then
                { eps with metrics := some (serviceEndpointURL sqliteDB m.port) }
              else eps
            | none => eps
          { base with endpoints := some eps }
        else base
      | none => base
    else
      { sqliteDB.status with phase := "Pending", message := "Deployment is starting" }

/-- readyCondition is the condition constructed by updateStatus
    (sqlitedatabase_controller.go, lines 861-872): built as
    True/ReconciliationSucceeded and overwritten to
    False/ReconciliationInProgress when the phase is not Running; the
    message mirrors the status message. -/
def readyCondition (st : SqliteDatabaseStatus) : Condition :=
  if st.phase = "Running" then
    { type := "Ready", status := "True",
      reason := "ReconciliationSucceeded", message := st.message }
  else
    { type := "Ready", status := "False",
      reason := "ReconciliationInProgress", message := st.message }

/-- upsertCondition is the update-or-add loop of updateStatus
    (sqlitedatabase_controller.go, lines 874-887): replace the first
    condition whose type matches, else append at the end. -/
def upsertCondition (conds : List Condition) (c : Condition) : List Condition :=
  match conds with
  | [] => [c]
  | x :: xs => if x.type = c.type then c :: xs else x :: upsertCondition xs c

/-- updateStatus derives the new status written back by the controller
    (sqlitedatabase_controller.go, lines 818-890): phase derivation
    followed by the Ready-condition upsert. -/
def updateStatus (sqliteDB : SqliteDatabase) (dep : DeploymentLookup) : SqliteDatabaseStatus :=
  let st := derivePhase sqliteDB dep
  { st with conditions := upsertCondition st.conditions (readyCondition st) }

/-- litestreamEnabled models the guard
    `Spec.Litestream != nil && Spec.Litestream.Enabled`
    (sqlitedatabase_controller.go, line 111). -/
def litestreamEnabled (sqliteDB : SqliteDatabase) : Bool :=
  match sqliteDB.spec.litestream with
  | some l => l.enabled
  | none => false

/-- sqliteRestEnabled models the guard
    `Spec.SqliteRest != nil && Spec.SqliteRest.Enabled`
    (sqlitedatabase_controller.go, lines 119 and 133). -/
def sqliteRestEnabled (sqliteDB : SqliteDatabase) : Bool :=
  match sqliteDB.spec.sqliteRest with
  | some rest => rest.enabled
  | none => false

/-- ingressEnabled models the guard
    `Spec.Ingress != nil && Spec.Ingress.Enabled`
    (sqlitedatabase_controller.go, line 141). -/
def ingressEnabled (sqliteDB : SqliteDatabase) : Bool :=
  match sqliteDB.spec.ingress with
  | some ing => ing.enabled
  | none => false

/-- reconcileObservedGeneration is the observed-generation block of
    Reconcile (sqlitedatabase_controller.go, lines 96-102): when the
    status' observed generation differs from the object's generation, copy
    the generation into the status. -/
def reconcileObservedGeneration (sqliteDB : SqliteDatabase) : SqliteDatabase :=
  if sqliteDB.status.observedGeneration ≠ sqliteDB.generation then
    { sqliteDB with status.observedGeneration := sqliteDB.generation }
  else sqliteDB

/-- Step names the observable actions of one Reconcile invocation, in the
    vocabulary of the orchestrator's pipeline. -/
inductive Step where
  | fetch
  | defaults
  | genWrite
  | pvc
  | litestreamCfg
  | restCfg
  | deployment
  | service
  | ingress
  | statusWrite
  deriving Repr, DecidableEq

/-- FetchResult models the outcome of the primary Get on the
    SqliteDatabase (sqlitedatabase_controller.go, lines 82-90). -/
inductive FetchResult where
  | notFound
  | fetchError (msg : String)
  | found (sqliteDB : SqliteDatabase)
  deriving Repr, DecidableEq

/-- Env abstracts the external object store for one Reconcile invocation:
    the primary fetch outcome and, for each subsequent fallible step, the
    error the store returns for it (none = success). -/
structure Env where
  fetch : FetchResult
  genWriteErr : Option String
  pvcErr : Option String
  litestreamCfgErr : Option String
  restCfgErr : Option String
  deploymentErr : Option String
  serviceErr : Option String
  ingressErr : Option String
  statusWriteErr : Option String
  deriving Repr, DecidableEq

/-- stepErr reads the environment's error for a pipeline step; the fetch
    and defaulting steps are handled before the fallible chain and carry no
    error of their own. -/
def stepErr (env : Env) : Step → Option String
  | Step.fetch => none
  | Step.defaults => none
  | Step.genWrite => env.genWriteErr
  | Step.pvc => env.pvcErr
  | Step.litestreamCfg => env.litestreamCfgErr
  | Step.restCfg => env.restCfgErr
  | Step.deployment => env.deploymentErr
  | Step.service => env.serviceErr
  | Step.ingress => env.ingressErr
  | Step.statusWrite => env.statusWriteErr

/-- tryStep models one `if err := ...; err != nil { return ..., err }` block
    of Reconcile: record the step as executed; on error stop and return it,
    otherwise continue with the rest of the pipeline. -/
def tryStep (res : Option String) (s : Step) (acc : List Step)
    (k : List Step → Option String × List Step) : Option String × List Step :=
  match res with
  | some e => (some e, acc ++ [s])
  | none => k (acc ++ [s])

/-- tryStepIf models a conditionally executed pipeline block (the
    enablement guards of Reconcile): when the guard is false the step is
    skipped entirely. -/
def tryStepIf (cond : Bool) (res : Option String) (s : Step) (acc : List Step)
    (k : List Step → Option String × List Step) : Option String × List Step :=
  if cond then tryStep res s acc k else k acc

/-- Reconcile is the orchestrator (sqlitedatabase_controller.go, lines
    78-155), transcribed block by block: primary fetch (not-found returns
    success immediately), defaulting, conditional observed-generation
    write, PVC, Litestream config if enabled, sqlite-rest config if
    enabled, Deployment, Service if enabled, Ingress if enabled, status
    write.  The result pairs the returned error (none = success) with the
    ordered list of steps that were executed. -/
def Reconcile (env : Env) : Option String × List Step :=
  match env.fetch with
  | FetchResult.notFound => (none, [Step.fetch])
  | FetchResult.fetchError e => (some e, [Step.fetch])
  | FetchResult.found sqliteDB =>
    let db := setDefaults sqliteDB
    tryStepIf (db.status.observedGeneration != db.generation) env.genWriteErr Step.genWrite
      [Step.fetch, Step.defaults] (fun acc =>
    tryStep env.pvcErr Step.pvc acc (fun acc =>
    tryStepIf (litestreamEnabled db) env.litestreamCfgErr Step.litestreamCfg acc (fun acc =>
    tryStepIf (sqliteRestEnabled db) env.restCfgErr Step.restCfg acc (fun acc =>
    tryStep env.deploymentErr Step.deployment acc (fun acc =>
    tryStepIf (sqliteRestEnabled db) env.serviceErr Step.service acc (fun acc =>
    tryStepIf (ingressEnabled db) env.ingressErr Step.ingress acc (fun acc =>
    tryStep env.statusWriteErr Step.statusWrite acc (fun acc =>
    (none, acc)))))))))

/-- plannedSteps is the pipeline order stated by the specification for a
    given (defaulted) resource: the fixed step sequence with the three
    enablement guards and the changed-generation guard applied. -/
def plannedSteps (db : SqliteDatabase) : List Step :=
  [Step.fetch, Step.defaults] ++
  (if db.status.observedGeneration != db.generation then [Step.genWrite] else []) ++
  [Step.pvc] ++
  (if litestreamEnabled db then [Step.litestreamCfg] else []) ++
  (if sqliteRestEnabled db then [Step.restCfg] else []) ++
  [Step.deployment] ++
  (if sqliteRestEnabled db then [Step.service] else []) ++
  (if ingressEnabled db then [Step.ingress] else []) ++
  [Step.statusWrite]

/-- runPlan executes a list of steps in order against the environment,
    short-circuiting on the first error. -/
def runPlan (env : Env) : List Step → List Step → Option String × List Step
  | [], acc => (none, acc)
  | s :: rest, acc => tryStep (stepErr env s) s acc (fun acc => runPlan env rest acc)

/-- metricsEnabled models the guard `Metrics != nil && Metrics.Enabled`
    (sqlitedatabase_controller.go, lines 389, 665, 691, 740, 848). -/
def metricsEnabled (rest : SqliteRestConfig) : Bool :=
  match rest.metrics with
  | some m => m.enabled
  | none => false

/-- ingressTLSConfigured models the guard
    `TLS != nil && TLS.Enabled && TLS.SecretName != nil`
    (sqlitedatabase_controller.go, line 795). -/
def ingressTLSConfigured (ing : IngressConfig) : Bool :=
  match ing.tls with
  | some tlsCfg => tlsCfg.enabled && tlsCfg.secretName.isSome
  | none => false

/-- credentialEnvPair is the per-replica contribution of the
    credential-environment loop: the two secret-sourced variables for a
    replica that declares credentials, nothing otherwise. -/
def credentialEnvPair (replica : ReplicaConfig) : List EnvVarRef :=
  match replica.credentials with
  | some creds =>
    [{ name := "LITESTREAM_ACCESS_KEY_ID", secretName := creds.secretName,
       key := getStringValue creds.accessKeyField "access-key" },
     { name := "LITESTREAM_SECRET_ACCESS_KEY", secretName := creds.secretName,
       key := getStringValue creds.secretKeyField "secret-key" }]
  | none => []

/-- claimedScheme transcribes the specification claim's scheme table:
    s3 for s3, abs for azure, gs for gcs, file for local, s3 for any
    unknown kind.  This definition follows the claim's wording, for
    comparison against buildReplicaURL (which is from the source). -/
def claimedScheme (kind : String) : String :=
  match kind with
  | "s3" => "s3"
  | "azure" => "abs"
  | "gcs" => "gs"
  | "local" => "file"
  | _ => "s3"

/-- claimedReplicaURL transcribes the specification claim's URL formula
    `scheme://bucket/path` with path defaulting to empty, for comparison
    against buildReplicaURL (which is from the source). -/
def claimedReplicaURL (replica : ReplicaConfig) : String :=
  claimedScheme replica.type ++ "://" ++ replica.bucket ++ "/" ++
    (match replica.path with
     | some p => p
     | none => "")

end controller

namespace samples

open v1alpha1 controller

/-- Sample replica on the local backend, used as a concrete input. -/
def replicaLocal : ReplicaConfig :=
  { type := "local", bucket := "b", region := none, endpoint := none,
    path := some "p", credentials := none, retention := none,
    retentionCheckInterval := none }

/-- Sample replica on the s3 backend, used as a concrete input. -/
def replicaS3 : ReplicaConfig :=
  { type := "s3", bucket := "b1", region := none, endpoint := none,
    path := some "p1", credentials := none, retention := none,
    retentionCheckInterval := none }

/-- Sample credentials reference, used as a concrete input. -/
def credentials1 : CredentialsConfig :=
  { secretName := "sec1", accessKeyField := none, secretKeyField := none }

/-- Sample spec with every optional field left unset. -/
def emptySpec : SqliteDatabaseSpec :=
  { database := { name := "", initScript := none,
                  storage := { size := "", storageClass := none, accessMode := "" } },
    litestream := none, sqliteRest := none, ingress := none }

/-- Sample empty status. -/
def emptyStatus : SqliteDatabaseStatus :=
  { phase := "", message := "", replicas := 0, endpoints := none,
    conditions := [], observedGeneration := 1 }

/-- Sample resource with every optional spec field left unset. -/
def emptyDb : SqliteDatabase :=
  { name := "db1", Namespace := "ns1", generation := 3,
    spec := emptySpec, status := emptyStatus }

/-- Sample enabled sqlite-rest sub-config with enabled metrics. -/
def rest1 : SqliteRestConfig :=
  { enabled := true, port := 9090, authSecret := none, allowedTables := [],
    metrics := some { enabled := true, port := 9091 } }

/-- Sample resource with the API sub-config enabled. -/
def restDb : SqliteDatabase :=
  { emptyDb with spec.sqliteRest := some rest1 }

/-- Sample resource with ingress enabled but no hostname. -/
def ingressDbNoHost : SqliteDatabase :=
  { emptyDb with spec.ingress := some { enabled := true, host := none, tls := none } }

/-- Sample ingress sub-config with a hostname and TLS configured. -/
def ingTLS : IngressConfig :=
  { enabled := true, host := some "api.example.com",
    tls := some { enabled := true, secretName := some "api-tls" } }

/-- Sample resource with ingress enabled, a hostname, and TLS configured. -/
def ingressDbTLS : SqliteDatabase :=
  { emptyDb with spec.ingress := some ingTLS }

/-- Sample resource with litestream enabled and one s3 replica. -/
def litestreamDb : SqliteDatabase :=
  { emptyDb with spec.litestream := some { enabled := true, replicas := [replicaS3] } }

/-- Sample credentialed replica referencing the secret sec1. -/
def replicaCred1 : ReplicaConfig :=
  { replicaS3 with credentials := some credentials1 }

/-- Sample credentialed replica referencing the secret sec2. -/
def replicaCred2 : ReplicaConfig :=
  { replicaS3 with credentials := some { credentials1 with secretName := "sec2" } }

/-- Sample environment whose primary fetch reports not-found and whose
    store operations all succeed. -/
def envNotFound : Env :=
  { fetch := FetchResult.notFound, genWriteErr := none, pvcErr := none,
    litestreamCfgErr := none, restCfgErr := none, deploymentErr := none,
    serviceErr := none, ingressErr := none, statusWriteErr := none }

/-- Sample environment that finds the empty sample resource and fails the
    Litestream config step. -/
def envLitestreamFail : Env :=
  { envNotFound with
      fetch := FetchResult.found emptyDb
      litestreamCfgErr := some "boom" }

end samples

open v1alpha1 controller

/-- Claim C3, counterexample: the claim states that every synthesized
    replica URL equals scheme://bucket/path with scheme file for the local
    backend kind, but for a local replica with bucket b and path p the
    source's buildReplicaURL returns file:///backups/p, ignoring the
    bucket, not file://b/p. -/
theorem C3_buildReplicaURL_counterexample :
    buildReplicaURL samples.replicaLocal ≠ claimedReplicaURL samples.replicaLocal ∧
    buildReplicaURL samples.replicaLocal = "file:///backups/p" ∧
    claimedReplicaURL samples.replicaLocal = "file://b/p" := by
  refine ⟨?_, rfl, rfl⟩
  decide

/-- Claim C3, amended: for backend kinds s3, azure, gcs and unknown kinds
    the synthesized url is scheme://bucket/path (scheme s3, abs, gs, and
    s3 respectively, path defaulting to empty when unset); for the local
    kind the url is file:///backups/path, with the bucket ignored. -/
theorem C3_buildReplicaURL_amended (replica : ReplicaConfig) :
    buildReplicaURL replica =
      if replica.type = "local" then "file:///backups/" ++ replica.path.getD ""
      else claimedReplicaURL replica := by
  rcases replica with ⟨t, b, rg, ep, p, cr, rt, rci⟩
  dsimp only
  by_cases h : t = "local"
  · subst h
    cases p <;> rfl
  · rw [if_neg h]
    unfold buildReplicaURL claimedReplicaURL claimedScheme
    cases p <;> dsimp only [Option.getD] <;> (split <;> simp_all)

set_option maxHeartbeats 1000000 in
/-- Claim C6: the defaulting pass is total (it is a Lean function, defined
    for every input) and fills each optional field left unset with its
    documented default: database file name database.db, storage size 1Gi,
    access mode ReadWriteMany, replication sub-config present and enabled,
    API sub-config present and disabled with port 8080 and metrics enabled
    on port 8081, network-exposure sub-config present and disabled. -/
theorem C6_setDefaults_fills_documented_defaults (sqliteDB : SqliteDatabase) :
    (sqliteDB.spec.database.name = "" →
      (setDefaults sqliteDB).spec.database.name = "database.db") ∧
    (sqliteDB.spec.database.storage.size = "" →
      (setDefaults sqliteDB).spec.database.storage.size = "1Gi") ∧
    (sqliteDB.spec.database.storage.accessMode = "" →
      (setDefaults sqliteDB).spec.database.storage.accessMode = "ReadWriteMany") ∧
    (sqliteDB.spec.litestream = none →
      (setDefaults sqliteDB).spec.litestream = some { enabled := true, replicas := [] }) ∧
    (sqliteDB.spec.sqliteRest = none →
      (setDefaults sqliteDB).spec.sqliteRest =
        some { enabled := false, port := 8080, authSecret := none, allowedTables := [],
               metrics := some { enabled := true, port := 8081 } }) ∧
    (sqliteDB.spec.ingress = none →
      (setDefaults sqliteDB).spec.ingress = some { enabled := false, host := none, tls := none }) := by
  rcases sqliteDB with ⟨nm, nsp, gen, ⟨⟨dbn, dbi, ⟨sz, sc, am⟩⟩, ls, sr, ing⟩, st⟩
  by_cases h1 : dbn = "" <;> by_cases h2 : sz = "" <;>
    by_cases h3 : ls = (none : Option v1alpha1.LitestreamConfig) <;>
    by_cases h4 : sr = (none : Option SqliteRestConfig) <;>
    by_cases h5 : am = "" <;> by_cases h6 : ing = (none : Option IngressConfig) <;>
    simp [setDefaults, h1, h2, h3, h4, h5, h6]

/-- Claim C6, witness: defaulting the fully-unset sample spec yields every
    documented default. -/
theorem C6_setDefaults_fills_documented_defaults_witness :
    (setDefaults samples.emptyDb).spec.database.name = "database.db" ∧
    (setDefaults samples.emptyDb).spec.database.storage.size = "1Gi" ∧
    (setDefaults samples.emptyDb).spec.database.storage.accessMode = "ReadWriteMany" ∧
    (setDefaults samples.emptyDb).spec.litestream = some { enabled := true, replicas := [] } ∧
    (setDefaults samples.emptyDb).spec.sqliteRest =
      some { enabled := false, port := 8080, authSecret := none, allowedTables := [],
             metrics := some { enabled := true, port := 8081 } } ∧
    (setDefaults samples.emptyDb).spec.ingress =
      some { enabled := false, host := none, tls := none } := by
  have h := C6_setDefaults_fills_documented_defaults samples.emptyDb
  exact ⟨h.1 rfl, h.2.1 rfl, h.2.2.1 rfl, h.2.2.2.1 rfl, h.2.2.2.2.1 rfl, h.2.2.2.2.2 rfl⟩

/-- Claim C4: for a spec with the API sub-config present and enabled, the
    built service exposes the configured API port (entry named http whose
    target port is the configured port; the service-side port number is the
    fixed 8080) and exposes a metrics entry iff metrics is enabled in the
    API sub-config, targeting the configured metrics port. -/
theorem C4_buildServicePorts_exposes_ports (sqliteDB : SqliteDatabase)
    (rest : SqliteRestConfig)
    (hrest : sqliteDB.spec.sqliteRest = some rest) (hen : rest.enabled = true) :
    (∃ p ∈ buildServicePorts sqliteDB, p.name = "http" ∧ p.targetPort = rest.port) ∧
    ((∃ p ∈ buildServicePorts sqliteDB, p.name = "metrics") ↔ metricsEnabled rest = true) ∧
    (∀ p ∈ buildServicePorts sqliteDB, p.name = "metrics" →
      ∀ m, rest.metrics = some m → p.targetPort = m.port) := by
  unfold buildServicePorts
  rw [hrest]
  rcases rest with ⟨en, prt, auth, tables, met⟩
  dsimp only
  cases met with
  | none => simp [metricsEnabled]
  | some m =>
    by_cases hm : m.enabled = true <;> simp [metricsEnabled, hm]

/-- Claim C4, witness: the sample resource with the API sub-config enabled
    on port 9090 and metrics on 9091 satisfies the service-port property. -/
theorem C4_buildServicePorts_exposes_ports_witness :
    (∃ p ∈ buildServicePorts samples.restDb, p.name = "http" ∧
        p.targetPort = samples.rest1.port) ∧
    ((∃ p ∈ buildServicePorts samples.restDb, p.name = "metrics") ↔
        metricsEnabled samples.rest1 = true) ∧
    (∀ p ∈ buildServicePorts samples.restDb, p.name = "metrics" →
      ∀ m, samples.rest1.metrics = some m → p.targetPort = m.port) :=
  C4_buildServicePorts_exposes_ports samples.restDb samples.rest1 rfl rfl

/-- Claim C5: with ingress enabled and hostname unset, reconcileIngress
    returns the missing-host error before any store interaction (the model
    performs the store call only on the ok result, so no ingress object is
    created); with a hostname set it returns an ingress whose single host
    rule routes to name-service on port 8080, carrying a TLS section and
    the fixed cert-issuer annotation iff TLS is enabled and a secret name
    is supplied, and an empty TLS section and no annotations otherwise. -/
theorem C5_reconcileIngress_requires_host (sqliteDB : SqliteDatabase)
    (ing : IngressConfig)
    (hing : sqliteDB.spec.ingress = some ing) (hen : ing.enabled = true) :
    (ing.host = none →
      reconcileIngress sqliteDB =
        Except.error "ingress host is required when ingress is enabled") ∧
    (∀ h, ing.host = some h →
      ∃ obj, reconcileIngress sqliteDB = Except.ok obj ∧
        obj.host = h ∧
        obj.name = sqliteDB.name ++ "-ingress" ∧
        obj.serviceName = sqliteDB.name ++ "-service" ∧
        obj.servicePort = 8080 ∧
        (ingressTLSConfigured ing = false → obj.tls = [] ∧ obj.annotations = []) ∧
        (∀ tlsCfg sn, ing.tls = some tlsCfg → tlsCfg.enabled = true →
          tlsCfg.secretName = some sn →
          obj.tls = [{ hosts := [h], secretName := sn }] ∧
          obj.annotations = [("cert-manager.io/cluster-issuer", "letsencrypt-prod")])) := by
  unfold reconcileIngress
  rw [hing]
  rcases ing with ⟨en, hostF, tlsF⟩
  constructor
  · intro hh
    dsimp only at hh
    subst hh
    rfl
  · intro h hh
    dsimp only at hh
    subst hh
    dsimp only
    cases tlsF with
    | none =>
      refine ⟨_, rfl, rfl, rfl, rfl, rfl, fun _ => ⟨rfl, rfl⟩, ?_⟩
      intro tlsCfg sn hc
      simp at hc
    | some t =>
      rcases t with ⟨ten, tsn⟩
      cases ten with
      | false =>
        refine ⟨_, rfl, rfl, rfl, rfl, rfl, fun _ => ⟨rfl, rfl⟩, ?_⟩
        intro tlsCfg sn hc hten
        simp only [Option.some.injEq] at hc
        subst hc
        simp at hten
      | true =>
        cases tsn with
        | none =>
          refine ⟨_, rfl, rfl, rfl, rfl, rfl, fun _ => ⟨rfl, rfl⟩, ?_⟩
          intro tlsCfg sn hc hten hsn
          simp only [Option.some.injEq] at hc
          subst hc
          simp at hsn
        | some sn0 =>
          refine ⟨_, rfl, rfl, rfl, rfl, rfl, ?_, ?_⟩
          · intro hfalse
            simp [ingressTLSConfigured] at hfalse
          · intro tlsCfg sn hc hten hsn
            simp only [Option.some.injEq] at hc
            subst hc
            simp only [Option.some.injEq] at hsn
            subst hsn
            exact ⟨rfl, rfl⟩

/-- Claim C5, witness: the hostless sample resource yields the error, and
    the TLS sample resource yields an ingress with the sampled host and
    TLS section. -/
theorem C5_reconcileIngress_requires_host_witness :
    reconcileIngress samples.ingressDbNoHost =
      Except.error "ingress host is required when ingress is enabled" ∧
    (∃ obj, reconcileIngress samples.ingressDbTLS = Except.ok obj ∧
      obj.host = "api.example.com" ∧
      obj.tls = [{ hosts := ["api.example.com"], secretName := "api-tls" }]) := by
  constructor
  · exact (C5_reconcileIngress_requires_host samples.ingressDbNoHost _ rfl rfl).1 rfl
  · obtain ⟨obj, hobj, hhost, _, _, _, _, htls⟩ :=
      (C5_reconcileIngress_requires_host samples.ingressDbTLS samples.ingTLS rfl rfl).2
        "api.example.com" rfl
    exact ⟨obj, hobj, hhost, (htls _ "api-tls" rfl rfl rfl).1⟩

/-- Helper: a left fold that appends f of each element equals the
    accumulator followed by the flat map of f. -/
theorem foldl_append_flatMap_envs (f : ReplicaConfig → List EnvVarRef) :
    ∀ (l : List ReplicaConfig) (acc : List EnvVarRef),
      l.foldl (fun env r => env ++ f r) acc = acc ++ l.flatMap f := by
  intro l
  induction l with
  | nil => intro acc; simp
  | cons r rs ih => intro acc; simp [List.foldl_cons, ih]

/-- Helper: the credential-environment loop equals the flat map of the
    per-replica contribution. -/
theorem litestreamContainerEnv_eq_flatMap (replicas : List ReplicaConfig) :
    litestreamContainerEnv replicas = replicas.flatMap credentialEnvPair := by
  unfold litestreamContainerEnv
  have hfun : (fun (env : List EnvVarRef) (replica : ReplicaConfig) =>
      match replica.credentials with
      | some creds =>
        env ++
          [{ name := "LITESTREAM_ACCESS_KEY_ID", secretName := creds.secretName,
             key := getStringValue creds.accessKeyField "access-key" },
           { name := "LITESTREAM_SECRET_ACCESS_KEY", secretName := creds.secretName,
             key := getStringValue creds.secretKeyField "secret-key" }]
      | none => env) =
      fun env replica => env ++ credentialEnvPair replica := by
    funext env replica
    cases hc : replica.credentials <;> simp [credentialEnvPair, hc]
  rw [hfun, foldl_append_flatMap_envs]
  simp

/-- Helper: the access-key variable name occurs once per credentialed
    replica in the flattened environment. -/
theorem credentialEnvPair_names_count (replicas : List ReplicaConfig) :
    ((replicas.flatMap credentialEnvPair).map (fun e => e.name)).count
        "LITESTREAM_ACCESS_KEY_ID" =
      replicas.countP (fun r => r.credentials.isSome) := by
  induction replicas with
  | nil => rfl
  | cons r rs ih =>
    cases hc : r.credentials <;>
      simp [credentialEnvPair, hc, List.countP_cons, ih, List.count_cons]

/-- Helper: the flattened environment has two entries per credentialed
    replica. -/
theorem credentialEnvPair_total_length (replicas : List ReplicaConfig) :
    (replicas.flatMap credentialEnvPair).length =
      2 * replicas.countP (fun r => r.credentials.isSome) := by
  induction replicas with
  | nil => rfl
  | cons r rs ih =>
    cases hc : r.credentials <;>
      (simp [credentialEnvPair, hc, List.countP_cons, ih]; try omega)

/-- Claim C10: the replication sidecar environment is, in order, one pair
    of entries per credentialed replica; its length is twice the number of
    credentialed replicas; every entry is named LITESTREAM_ACCESS_KEY_ID
    or LITESTREAM_SECRET_ACCESS_KEY; each pair references its own
    replica's secret; and with two or more credentialed replicas the
    variable names contain duplicates. -/
theorem C10_litestreamContainerEnv_pairs (replicas : List ReplicaConfig) :
    litestreamContainerEnv replicas = replicas.flatMap credentialEnvPair ∧
    (litestreamContainerEnv replicas).length =
      2 * replicas.countP (fun r => r.credentials.isSome) ∧
    (∀ e ∈ litestreamContainerEnv replicas,
      e.name = "LITESTREAM_ACCESS_KEY_ID" ∨ e.name = "LITESTREAM_SECRET_ACCESS_KEY") ∧
    (∀ r ∈ replicas, ∀ creds, r.credentials = some creds →
      ∀ e ∈ credentialEnvPair r, e.secretName = creds.secretName) ∧
    (2 ≤ replicas.countP (fun r => r.credentials.isSome) →
      ¬ ((litestreamContainerEnv replicas).map (fun e => e.name)).Nodup) := by
  refine ⟨litestreamContainerEnv_eq_flatMap replicas, ?_, ?_, ?_, ?_⟩
  · rw [litestreamContainerEnv_eq_flatMap]
    exact credentialEnvPair_total_length replicas
  · rw [litestreamContainerEnv_eq_flatMap]
    intro e he
    rcases List.mem_flatMap.mp he with ⟨r, _, hr⟩
    cases hc : r.credentials with
    | none => simp [credentialEnvPair, hc] at hr
    | some creds =>
      simp only [credentialEnvPair, hc, List.mem_cons, List.mem_singleton,
        List.not_mem_nil, or_false] at hr
      rcases hr with h | h <;> subst h
      · left; rfl
      · right; rfl
  · intro r _ creds hcreds e he
    simp only [credentialEnvPair, hcreds, List.mem_cons, List.mem_singleton,
      List.not_mem_nil, or_false] at he
    rcases he with h | h <;> subst h <;> rfl
  · intro h2 hnd
    rw [litestreamContainerEnv_eq_flatMap] at hnd
    have hcount := List.nodup_iff_count_le_one.mp hnd "LITESTREAM_ACCESS_KEY_ID"
    rw [credentialEnvPair_names_count] at hcount
    omega

/-- Claim C10, witness: with two credentialed sample replicas the
    environment has four entries and duplicate variable names. -/
theorem C10_litestreamContainerEnv_pairs_witness :
    (litestreamContainerEnv [samples.replicaCred1, samples.replicaCred2]).length = 4 ∧
    ¬ ((litestreamContainerEnv [samples.replicaCred1, samples.replicaCred2]).map
        (fun e => e.name)).Nodup := by
  have h := C10_litestreamContainerEnv_pairs [samples.replicaCred1, samples.replicaCred2]
  exact ⟨h.2.1.trans (by decide), h.2.2.2.2 (by decide)⟩

/-- Claim C1: the status deriver sets, per Deployment lookup outcome:
    not-found gives Pending with the workload-not-found message (the code's
    exact string is "Deployment not found"); any other lookup error gives
    Failed with a message including the error; found with positive ready
    count gives Running, the running-successfully message ("Database is
    running successfully"), replicas set to the ready count, and, when the
    API sub-config is enabled, a rest endpoint of the form
    http://name-service.namespace.svc.cluster.local:port, with a metrics
    endpoint likewise iff metrics is enabled; found with zero ready count
    gives Pending with the starting message ("Deployment is starting"). -/
theorem C1_updateStatus_phase_transitions (sqliteDB : SqliteDatabase) (dep : DeploymentLookup) :
    (dep = DeploymentLookup.notFound →
      (updateStatus sqliteDB dep).phase = "Pending" ∧
      (updateStatus sqliteDB dep).message = "Deployment not found") ∧
    (∀ msg, dep = DeploymentLookup.lookupError msg →
      (updateStatus sqliteDB dep).phase = "Failed" ∧
      (updateStatus sqliteDB dep).message = "Failed to get deployment: " ++ msg) ∧
    (∀ n, dep = DeploymentLookup.found n → 0 < n →
      (updateStatus sqliteDB dep).phase = "Running" ∧
      (updateStatus sqliteDB dep).message = "Database is running successfully" ∧
      (updateStatus sqliteDB dep).replicas = n ∧
      (∀ rest, sqliteDB.spec.sqliteRest = some rest → rest.enabled = true →
        ∃ eps, (updateStatus sqliteDB dep).endpoints = some eps ∧
          eps.rest = some (serviceEndpointURL sqliteDB rest.port) ∧
          (∀ m, rest.metrics = some m → m.enabled = true →
            eps.metrics = some (serviceEndpointURL sqliteDB m.port)) ∧
          (metricsEnabled rest = false → eps.metrics = none))) ∧
    (∀ n, dep = DeploymentLookup.found n → n = 0 →
      (updateStatus sqliteDB dep).phase = "Pending" ∧
      (updateStatus sqliteDB dep).message = "Deployment is starting") := by
  refine ⟨?_, ?_, ?_, ?_⟩
  · intro h; subst h; exact ⟨rfl, rfl⟩
  · intro msg h; subst h; exact ⟨rfl, rfl⟩
  · intro n h hn; subst h
    unfold updateStatus derivePhase
    dsimp only
    rw [if_pos hn]
    refine ⟨?_, ?_, ?_, ?_⟩
    · cases hr : sqliteDB.spec.sqliteRest with
      | none => rfl
      | some rest =>
        dsimp only
        by_cases hren : rest.enabled = true
        · rw [if_pos hren]
        · rw [if_neg hren]
    · cases hr : sqliteDB.spec.sqliteRest with
      | none => rfl
      | some rest =>
        dsimp only
        by_cases hren : rest.enabled = true
        · rw [if_pos hren]
        · rw [if_neg hren]
    · cases hr : sqliteDB.spec.sqliteRest with
      | none => rfl
      | some rest =>
        dsimp only
        by_cases hren : rest.enabled = true
        · rw [if_pos hren]
        · rw [if_neg hren]
    · intro rest hrest hen
      rw [hrest]
      dsimp only
      rw [if_pos hen]
      cases hm : rest.metrics with
      | none =>
        dsimp only
        refine ⟨_, rfl, rfl, ?_, fun _ => rfl⟩
        intro m hm2 _
        cases hm2
      | some m =>
        dsimp only
        by_cases hmen : m.enabled = true
        · rw [if_pos hmen]
          refine ⟨_, rfl, rfl, ?_, ?_⟩
          · intro m2 hm2 _
            injection hm2 with h2
            subst h2
            rfl
          · intro hfalse
            simp [metricsEnabled, hm, hmen] at hfalse
        · rw [if_neg hmen]
          refine ⟨_, rfl, rfl, ?_, fun _ => rfl⟩
          intro m2 hm2 hmen2
          injection hm2 with h2
          subst h2
          exact absurd hmen2 hmen
  · intro n h hn; subst h
    unfold updateStatus derivePhase
    dsimp only
    have hlt : ¬ (0 < n) := by omega
    rw [if_neg hlt]
    exact ⟨rfl, rfl⟩

/-- Claim C1, witness: with the enabled sample API sub-config and one
    ready replica, the derived status is Running with the rest endpoint. -/
theorem C1_updateStatus_phase_transitions_witness :
    (updateStatus samples.restDb (DeploymentLookup.found 1)).phase = "Running" ∧
    (updateStatus samples.restDb (DeploymentLookup.found 1)).message =
      "Database is running successfully" ∧
    (updateStatus samples.restDb (DeploymentLookup.found 1)).replicas = 1 ∧
    (∃ eps, (updateStatus samples.restDb (DeploymentLookup.found 1)).endpoints = some eps ∧
      eps.rest = some (serviceEndpointURL samples.restDb samples.rest1.port)) := by
  have h := (C1_updateStatus_phase_transitions samples.restDb
    (DeploymentLookup.found 1)).2.2.1 1 rfl (by norm_num)
  obtain ⟨eps, he, hrest, _, _⟩ := h.2.2.2 samples.rest1 rfl rfl
  exact ⟨h.1, h.2.1, h.2.2.1, eps, he, hrest⟩

/-- Claim C7: under the store invariant that the observed generation never
    exceeds the object's generation, the observed-generation block of
    Reconcile never decreases status.observedGeneration, and when it
    changes the value it changes it to spec.generation (so it advances
    only together with the generation). -/
theorem C7_observedGeneration_monotone (sqliteDB : SqliteDatabase)
    (h : sqliteDB.status.observedGeneration ≤ sqliteDB.generation) :
    sqliteDB.status.observedGeneration ≤
      (reconcileObservedGeneration sqliteDB).status.observedGeneration ∧
    ((reconcileObservedGeneration sqliteDB).status.observedGeneration ≠
        sqliteDB.status.observedGeneration →
      (reconcileObservedGeneration sqliteDB).status.observedGeneration =
        sqliteDB.generation ∧
      sqliteDB.status.observedGeneration < sqliteDB.generation) := by
  unfold reconcileObservedGeneration
  by_cases hne : sqliteDB.status.observedGeneration ≠ sqliteDB.generation
  · rw [if_pos hne]
    refine ⟨h, fun _ => ⟨rfl, ?_⟩⟩
    omega
  · rw [if_neg hne]
    exact ⟨le_refl _, fun hcon => absurd rfl hcon⟩

/-- Claim C7, witness: the sample resource with observed generation 1 and
    generation 3 advances monotonically. -/
theorem C7_observedGeneration_monotone_witness :
    samples.emptyDb.status.observedGeneration ≤
      (reconcileObservedGeneration samples.emptyDb).status.observedGeneration ∧
    ((reconcileObservedGeneration samples.emptyDb).status.observedGeneration ≠
        samples.emptyDb.status.observedGeneration →
      (reconcileObservedGeneration samples.emptyDb).status.observedGeneration =
        samples.emptyDb.generation ∧
      samples.emptyDb.status.observedGeneration < samples.emptyDb.generation) :=
  C7_observedGeneration_monotone samples.emptyDb (by decide)

/-- Claim C9: with replication enabled, the structured config document is
    built from one entry per replica (each carrying that replica's
    synthesized URL); when marshalling succeeds its output is returned
    unchanged, and when marshalling fails the builder still succeeds,
    returning the hand-built single-replica fallback document covering only
    the first replica entry. -/
theorem C9_buildLitestreamConfig_fallback (marshal : controller.LitestreamConfig → Option String)
    (sqliteDB : SqliteDatabase) (ls : v1alpha1.LitestreamConfig)
    (hls : sqliteDB.spec.litestream = some ls) (_hen : ls.enabled = true) :
    ((ls.replicas.map (litestreamEntry sqliteDB)).length = ls.replicas.length) ∧
    (∀ entry ∈ ls.replicas.map (litestreamEntry sqliteDB),
      entry.path = "/var/lib/sqlite/" ++ sqliteDB.spec.database.name ∧
      ∃ r ∈ ls.replicas, entry = litestreamEntry sqliteDB r ∧
        entry.replica.url = buildReplicaURL r) ∧
    (∀ y, marshal { dbs := ls.replicas.map (litestreamEntry sqliteDB) } = some y →
      buildLitestreamConfig marshal sqliteDB = some y) ∧
    (marshal { dbs := ls.replicas.map (litestreamEntry sqliteDB) } = none →
      ∀ first rest, ls.replicas = first :: rest →
        buildLitestreamConfig marshal sqliteDB = some (litestreamFallback sqliteDB first)) := by
  refine ⟨List.length_map _ _, ?_, ?_, ?_⟩
  · intro entry hentry
    rcases List.mem_map.mp hentry with ⟨r, hr, hEq⟩
    subst hEq
    exact ⟨rfl, r, hr, rfl, rfl⟩
  · intro y hy
    unfold buildLitestreamConfig
    rw [hls]
    dsimp only
    rw [hy]
  · intro hnone first rest hrep
    unfold buildLitestreamConfig
    rw [hls]
    dsimp only
    rw [hnone, hrep]

/-- Claim C9, witness: on the sample resource with one s3 replica, an
    always-successful marshaller's output is returned unchanged, and an
    always-failing marshaller yields the fallback document. -/
theorem C9_buildLitestreamConfig_fallback_witness :
    buildLitestreamConfig (fun _ => some "doc") samples.litestreamDb = some "doc" ∧
    buildLitestreamConfig (fun _ => none) samples.litestreamDb =
      some (litestreamFallback samples.litestreamDb samples.replicaS3) := by
  refine ⟨?_, ?_⟩
  · exact (C9_buildLitestreamConfig_fallback (fun _ => some "doc") samples.litestreamDb
      { enabled := true, replicas := [samples.replicaS3] } rfl rfl).2.2.1 "doc" rfl
  · exact (C9_buildLitestreamConfig_fallback (fun _ => none) samples.litestreamDb
      { enabled := true, replicas := [samples.replicaS3] } rfl rfl).2.2.2 rfl
      samples.replicaS3 [] rfl

/-- Helper: replacing the first type-matching condition, or appending when
    none matches, leaves exactly one Ready-typed condition when at most one
    existed before. -/
theorem upsertCondition_count_ready (conds : List Condition) (c : Condition)
    (hc : c.type = "Ready")
    (h : conds.countP (fun x => x.type == "Ready") ≤ 1) :
    (upsertCondition conds c).countP (fun x => x.type == "Ready") = 1 := by
  induction conds with
  | nil => simp [upsertCondition, hc]
  | cons x xs ih =>
    by_cases hx : x.type = c.type
    · rw [upsertCondition, if_pos hx]
      have hxr : x.type = "Ready" := hx.trans hc
      rw [List.countP_cons] at h
      simp [hxr] at h
      simp [List.countP_cons, hc, List.countP_eq_zero]
      exact h
    · rw [upsertCondition, if_neg hx]
      have hxr : ¬ x.type = "Ready" := fun hr => hx (hr.trans hc.symm)
      rw [List.countP_cons] at h
      simp [hxr] at h
      have hrec := ih h
      simp [List.countP_cons, hxr, hrec]

/-- Helper: after the upsert, every Ready-typed member is the new
    condition, when at most one Ready-typed condition existed before. -/
theorem upsertCondition_ready_mem (conds : List Condition) (c : Condition)
    (hc : c.type = "Ready")
    (h : conds.countP (fun x => x.type == "Ready") ≤ 1) :
    ∀ y ∈ upsertCondition conds c, y.type = "Ready" → y = c := by
  induction conds with
  | nil =>
    intro y hy _
    simp [upsertCondition] at hy
    exact hy
  | cons x xs ih =>
    intro y hy hyr
    by_cases hx : x.type = c.type
    · rw [upsertCondition, if_pos hx] at hy
      rcases List.mem_cons.mp hy with rfl | hy2
      · rfl
      · exfalso
        have hxr : x.type = "Ready" := hx.trans hc
        rw [List.countP_cons] at h
        simp [hxr] at h
        exact (h y hy2) hyr
    · rw [upsertCondition, if_neg hx] at hy
      rcases List.mem_cons.mp hy with rfl | hy2
      · exact absurd (hyr.trans hc.symm) hx
      · have hxr : ¬ x.type = "Ready" := fun hr => hx (hr.trans hc.symm)
        rw [List.countP_cons] at h
        simp [hxr] at h
        exact ih h y hy2 hyr

/-- Helper: the upsert leaves the non-Ready conditions unchanged. -/
theorem upsertCondition_filter_ne (conds : List Condition) (c : Condition)
    (hc : c.type = "Ready") :
    (upsertCondition conds c).filter (fun x => x.type != "Ready") =
      conds.filter (fun x => x.type != "Ready") := by
  induction conds with
  | nil => simp [upsertCondition, hc]
  | cons x xs ih =>
    by_cases hx : x.type = c.type
    · rw [upsertCondition, if_pos hx]
      have hxr : x.type = "Ready" := hx.trans hc
      simp [List.filter_cons, hxr, hc]
    · rw [upsertCondition, if_neg hx]
      simp only [List.filter_cons, ih]

/-- Helper: when no condition matches the new condition's type, the upsert
    appends it at the end. -/
theorem upsertCondition_append (conds : List Condition) (c : Condition)
    (h : ∀ x ∈ conds, x.type ≠ c.type) :
    upsertCondition conds c = conds ++ [c] := by
  induction conds with
  | nil => rfl
  | cons x xs ih =>
    rw [upsertCondition, if_neg (h x (List.mem_cons_self x xs))]
    rw [ih (fun a ha => h a (List.mem_cons_of_mem x ha))]
    rfl

/-- Helper: the upsert replaces the first type-matching condition in
    place. -/
theorem upsertCondition_replace (pre : List Condition) (c0 : Condition)
    (post : List Condition) (c : Condition)
    (hpre : ∀ x ∈ pre, x.type ≠ c.type) (h0 : c0.type = c.type) :
    upsertCondition (pre ++ c0 :: post) c = pre ++ c :: post := by
  induction pre with
  | nil => simp [upsertCondition, h0]
  | cons x xs ih =>
    simp only [List.cons_append, upsertCondition,
      if_neg (hpre x (List.mem_cons_self x xs))]
    have hrec := ih (fun a ha => hpre a (List.mem_cons_of_mem x ha))
    exact congrArg (fun l => x :: l) hrec

/-- Helper: phase derivation never changes the conditions list. -/
theorem derivePhase_conditions (sqliteDB : SqliteDatabase) (dep : DeploymentLookup) :
    (derivePhase sqliteDB dep).conditions = sqliteDB.status.conditions := by
  unfold derivePhase
  cases dep with
  | notFound => rfl
  | lookupError msg => rfl
  | found n =>
    dsimp only
    by_cases hn : 0 < n
    · rw [if_pos hn]
      cases hr : sqliteDB.spec.sqliteRest with
      | none => rfl
      | some rest =>
        dsimp only
        by_cases hren : rest.enabled = true
        · rw [if_pos hren]
        · rw [if_neg hren]
    · rw [if_neg hn]

/-- Helper: the upserted condition always has type Ready. -/
theorem readyCondition_type (st : SqliteDatabaseStatus) :
    (readyCondition st).type = "Ready" := by
  unfold readyCondition
  split <;> rfl

/-- Claim C8: given at most one Ready-typed condition beforehand, after
    updateStatus the conditions list has exactly one Ready-typed
    condition; that condition has status True with reason
    ReconciliationSucceeded iff the phase is Running, status False with
    reason ReconciliationInProgress otherwise, and its message equals the
    phase message; non-Ready conditions are untouched; the Ready condition
    is replaced in place when present and appended otherwise. -/
theorem C8_updateStatus_single_ready_condition (sqliteDB : SqliteDatabase)
    (dep : DeploymentLookup)
    (hcount : sqliteDB.status.conditions.countP (fun x => x.type == "Ready") ≤ 1) :
    (updateStatus sqliteDB dep).conditions.countP (fun x => x.type == "Ready") = 1 ∧
    (∀ c ∈ (updateStatus sqliteDB dep).conditions, c.type = "Ready" →
      c.message = (updateStatus sqliteDB dep).message ∧
      ((updateStatus sqliteDB dep).phase = "Running" →
        c.status = "True" ∧ c.reason = "ReconciliationSucceeded") ∧
      ((updateStatus sqliteDB dep).phase ≠ "Running" →
        c.status = "False" ∧ c.reason = "ReconciliationInProgress")) ∧
    ((updateStatus sqliteDB dep).conditions.filter (fun x => x.type != "Ready") =
      sqliteDB.status.conditions.filter (fun x => x.type != "Ready")) ∧
    ((∀ x ∈ sqliteDB.status.conditions, x.type ≠ "Ready") →
      (updateStatus sqliteDB dep).conditions =
        sqliteDB.status.conditions ++ [readyCondition (derivePhase sqliteDB dep)]) ∧
    (∀ pre c0 post, sqliteDB.status.conditions = pre ++ c0 :: post →
      (∀ x ∈ pre, x.type ≠ "Ready") → c0.type = "Ready" →
      (updateStatus sqliteDB dep).conditions =
        pre ++ readyCondition (derivePhase sqliteDB dep) :: post) := by
  have hcond1 : (updateStatus sqliteDB dep).conditions =
      upsertCondition (derivePhase sqliteDB dep).conditions
        (readyCondition (derivePhase sqliteDB dep)) := rfl
  have hconds := derivePhase_conditions sqliteDB dep
  have hctype := readyCondition_type (derivePhase sqliteDB dep)
  have hcount' : (derivePhase sqliteDB dep).conditions.countP
      (fun x => x.type == "Ready") ≤ 1 := by rw [hconds]; exact hcount
  have hmsg : (updateStatus sqliteDB dep).message = (derivePhase sqliteDB dep).message := rfl
  have hphase : (updateStatus sqliteDB dep).phase = (derivePhase sqliteDB dep).phase := rfl
  refine ⟨?_, ?_, ?_, ?_, ?_⟩
  · rw [hcond1]
    exact upsertCondition_count_ready _ _ hctype hcount'
  · intro c hcmem hcr
    rw [hcond1] at hcmem
    have hceq := upsertCondition_ready_mem _ _ hctype hcount' c hcmem hcr
    subst hceq
    rw [hmsg, hphase]
    unfold readyCondition
    by_cases hrun : (derivePhase sqliteDB dep).phase = "Running"
    · rw [if_pos hrun]
      exact ⟨rfl, fun _ => ⟨rfl, rfl⟩, fun hne => absurd hrun hne⟩
    · rw [if_neg hrun]
      exact ⟨rfl, fun hr => absurd hr hrun, fun _ => ⟨rfl, rfl⟩⟩
  · rw [hcond1, upsertCondition_filter_ne _ _ hctype, hconds]
  · intro hnone
    rw [hcond1, hconds]
    exact upsertCondition_append _ _ (fun x hx => by rw [hctype]; exact hnone x hx)
  · intro pre c0 post hsplit hpre h0
    rw [hcond1, hconds, hsplit]
    exact upsertCondition_replace pre c0 post _
      (fun x hx => by rw [hctype]; exact hpre x hx) (by rw [hctype, h0])

/-- Claim C8, witness: on the sample resource with no prior conditions,
    updateStatus appends a single Ready condition. -/
theorem C8_updateStatus_single_ready_condition_witness :
    (updateStatus samples.emptyDb DeploymentLookup.notFound).conditions.countP
        (fun x => x.type == "Ready") = 1 ∧
    (updateStatus samples.emptyDb DeploymentLookup.notFound).conditions =
      samples.emptyDb.status.conditions ++
        [readyCondition (derivePhase samples.emptyDb DeploymentLookup.notFound)] := by
  have h := C8_updateStatus_single_ready_condition samples.emptyDb
    DeploymentLookup.notFound (by decide)
  exact ⟨h.1, h.2.2.2.1 (by intro x hx; simp [samples.emptyDb, samples.emptyStatus] at hx)⟩

/-- Helper: a successful step records itself and continues. -/
theorem tryStep_none (s : Step) (acc : List Step)
    (k : List Step → Option String × List Step) :
    tryStep none s acc k = k (acc ++ [s]) := rfl

/-- Helper: running an empty plan succeeds with the accumulated trace. -/
theorem runPlan_nil (env : Env) (acc : List Step) :
    runPlan env [] acc = (none, acc) := rfl

/-- Helper: running a plan starting with a step tries that step first. -/
theorem runPlan_cons (env : Env) (s : Step) (rest acc : List Step) :
    runPlan env (s :: rest) acc =
      tryStep (stepErr env s) s acc (fun a => runPlan env rest a) := rfl

/-- Helper: running a conditionally planned step is the conditional block. -/
theorem runPlan_append_if (env : Env) (c : Bool) (s : Step) (rest acc : List Step) :
    runPlan env ((if c then [s] else []) ++ rest) acc =
      tryStepIf c (stepErr env s) s acc (fun a => runPlan env rest a) := by
  cases c <;> simp [runPlan, tryStepIf]

/-- Helper: when the fetch finds the resource, Reconcile is exactly the
    short-circuiting run of the planned step list for the defaulted
    resource. -/
theorem Reconcile_found_eq_runPlan (env : Env) (sqliteDB : SqliteDatabase)
    (h : env.fetch = FetchResult.found sqliteDB) :
    Reconcile env = runPlan env (plannedSteps (setDefaults sqliteDB)) [] := by
  unfold Reconcile
  rw [h]
  dsimp only
  simp only [plannedSteps, List.append_assoc, List.cons_append, List.nil_append,
    runPlan_cons, runPlan_append_if, runPlan_nil, stepErr, tryStep_none]

/-- Helper: a short-circuiting run stops at the first failing step,
    returning its error and the executed prefix, and otherwise runs the
    whole plan successfully. -/
theorem runPlan_characterize (env : Env) :
    ∀ (steps acc : List Step),
      runPlan env steps acc =
        match steps.find? (fun t => (stepErr env t).isSome) with
        | some s => (stepErr env s,
            acc ++ (steps.takeWhile (fun t => (stepErr env t).isNone) ++ [s]))
        | none => (none, acc ++ steps) := by
  intro steps
  induction steps with
  | nil => intro acc; simp [runPlan]
  | cons s rest ih =>
    intro acc
    cases hE : stepErr env s with
    | some e =>
      rw [runPlan]
      rw [List.find?_cons_of_pos _ (by simp [hE])]
      rw [List.takeWhile_cons_of_neg (by simp [hE])]
      simp [tryStep, hE]
    | none =>
      rw [runPlan]
      rw [List.find?_cons_of_neg _ (by simp [hE])]
      rw [List.takeWhile_cons_of_pos (by simp [hE])]
      simp only [tryStep, hE, ih]
      cases hF : rest.find? (fun t => (stepErr env t).isSome) with
      | some s2 => simp
      | none => simp

/-- Claim C2: the orchestrator executes the stated pipeline in order
    (fetch; defaulting; observed-generation write when changed; storage
    claim; replication config iff replication enabled; API config iff API
    enabled; workload; service iff API enabled; ingress iff network
    exposure enabled; status write), short-circuits at the first failing
    step returning that step's error with the remaining steps skipped, and
    a not-found primary fetch succeeds immediately with no further
    action. -/
theorem C2_Reconcile_pipeline (env : Env) :
    (env.fetch = FetchResult.notFound → Reconcile env = (none, [Step.fetch])) ∧
    (∀ e, env.fetch = FetchResult.fetchError e → Reconcile env = (some e, [Step.fetch])) ∧
    (∀ sqliteDB, env.fetch = FetchResult.found sqliteDB →
      (∀ s, (plannedSteps (setDefaults sqliteDB)).find?
          (fun t => (stepErr env t).isSome) = some s →
        Reconcile env = (stepErr env s,
          (plannedSteps (setDefaults sqliteDB)).takeWhile
            (fun t => (stepErr env t).isNone) ++ [s])) ∧
      ((plannedSteps (setDefaults sqliteDB)).find?
          (fun t => (stepErr env t).isSome) = none →
        Reconcile env = (none, plannedSteps (setDefaults sqliteDB)))) := by
  refine ⟨?_, ?_, ?_⟩
  · intro h; unfold Reconcile; rw [h]
  · intro e h; unfold Reconcile; rw [h]
  · intro sqliteDB h
    have hr := Reconcile_found_eq_runPlan env sqliteDB h
    have hc := runPlan_characterize env (plannedSteps (setDefaults sqliteDB)) []
    constructor
    · intro s hs
      rw [hr, hc, hs]
      simp
    · intro hs
      rw [hr, hc, hs]
      simp

/-- Claim C2, witness: a not-found fetch ends the invocation at once, and
    a failing Litestream-config step on the defaulted sample resource
    returns that error with exactly the earlier steps executed. -/
theorem C2_Reconcile_pipeline_witness :
    Reconcile samples.envNotFound = (none, [Step.fetch]) ∧
    Reconcile samples.envLitestreamFail =
      (some "boom",
        [Step.fetch, Step.defaults, Step.genWrite, Step.pvc, Step.litestreamCfg]) := by
  constructor
  · exact (C2_Reconcile_pipeline samples.envNotFound).1 rfl
  · have h := ((C2_Reconcile_pipeline samples.envLitestreamFail).2.2
      samples.emptyDb rfl).1 Step.litestreamCfg (by rfl)
    exact h.trans (by rfl)

end SqliteOperator
